import Mathlib

set_option maxRecDepth 100000

/-!
Shallow embedding of the langchain-gestell adapter package
(src/langchain_gestell/util.py, search.py, prompt.py) and proofs about it.

Conventions of the embedding:
* Python strings become Lean String, Python None becomes Option.none.
* Python exceptions become the PyExc structure (kind = class name, msg = str of
  the exception); fallible code returns Except PyExc.
* The remote SDK call self=gestell.query.search / .prompt is an external
  collaborator; it is a parameter remote : Env -> Except PyExc PyObj, where Env
  is the keyword-argument mapping the adapter builds and PyObj is an attribute
  map for the response object.
-/

/-- Exception value: kind is the Python class name (ValueError, RuntimeError,
AttributeError, ...), msg is what str applied to the exception yields. -/
structure PyExc where
  kind : String
  msg : String

/-- Characters the Python int constructor strips around a numeric literal
(ASCII whitespace). -/
def isPySpace (c : Char) : Bool :=
  c = ' ' || c = '\t' || c = '\n' || c = '\r' || c = '\x0b' || c = '\x0c'

/-- Curly brace characters, stripped from both ends by hex.strip in the
CPython UUID constructor. -/
def isBrace (c : Char) : Bool :=
  c = '\x7b' || c = '\x7d'

/-- Hexadecimal digit test, as accepted by the Python int constructor with
base 16. -/
def isHexDigitCh (c : Char) : Bool :=
  ('0' ≤ c && c ≤ '9') || ('a' ≤ c && c ≤ 'f') || ('A' ≤ c && c ≤ 'F')

/-- Value of a hexadecimal digit. -/
def hexVal (c : Char) : Nat :=
  if '0' ≤ c && c ≤ '9' then c.toNat - 48
  else if 'a' ≤ c && c ≤ 'f' then c.toNat - 87
  else c.toNat - 55

/-- Does the second list start with the first one. -/
def startsWith : List Char → List Char → Bool
  | [], _ => true
  | _ :: _, [] => false
  | p :: ps, c :: cs => p = c && startsWith ps cs

/-- Fuel-driven worker for removeAll; the fuel equals the length of the input,
which suffices because every step consumes at least one character when the
pattern is nonempty. -/
def removeAllAux (pat : List Char) : Nat → List Char → List Char
  | _, [] => []
  | 0, s => s
  | fuel + 1, c :: rest =>
    if startsWith pat (c :: rest) then
      removeAllAux pat fuel ((c :: rest).drop pat.length)
    else
      c :: removeAllAux pat fuel rest

/-- Python str.replace with an empty replacement: removes every non-overlapping
occurrence of pat, scanning left to right. -/
def removeAll (pat : List Char) (s : List Char) : List Char :=
  removeAllAux pat s.length s

/-- Python str.strip applied with the two curly brace characters: drops every
leading and trailing brace. -/
def stripBraces (s : List Char) : List Char :=
  ((s.dropWhile isBrace).reverse.dropWhile isBrace).reverse

/-- Scanner for the digits of a base-16 Python int literal after its first
digit: single underscores are allowed between digits, never doubled and never
trailing. afterUnd records whether the previous character was an underscore. -/
def hexScan (acc : Nat) (afterUnd : Bool) : List Char → Option Nat
  | [] => if afterUnd then none else some acc
  | c :: rest =>
    if c = '_' then
      if afterUnd then none else hexScan acc true rest
    else if isHexDigitCh c then hexScan (16 * acc + hexVal c) false rest
    else none

/-- A nonempty run of hexadecimal digits with optional single underscores
between them; the first character must be a digit. -/
def hexNum : List Char → Option Nat
  | [] => none
  | c :: rest => if isHexDigitCh c then hexScan (hexVal c) false rest else none

/-- The part of a base-16 Python int literal after the optional sign: an
optional 0x or 0X marker (an underscore may directly follow it), then
hexadecimal digits. -/
def hexAfterSign (body : List Char) : Option Nat :=
  match body with
  | '0' :: x :: rest2 =>
    if x = 'x' || x = 'X' then
      match rest2 with
      | '_' :: rest3 => hexNum rest3
      | _ => hexNum rest2
    else hexNum ('0' :: x :: rest2)
  | _ => hexNum body

/-- Python int(s, 16): surrounding whitespace is stripped, an optional sign and
an optional 0x marker are accepted, underscores may separate digits; none
models the ValueError raised on any other input. -/
def pyIntHex (cs0 : List Char) : Option Int :=
  let cs := ((cs0.dropWhile isPySpace).reverse.dropWhile isPySpace).reverse
  match cs with
  | [] => none
  | c :: rest =>
    if c = '-' then (hexAfterSign rest).map (fun n => -(n : Int))
    else if c = '+' then (hexAfterSign rest).map (fun n => (n : Int))
    else (hexAfterSign (c :: rest)).map (fun n => (n : Int))

/-- ValueError raised by the CPython UUID constructor when the cleaned string
does not have exactly 32 characters. -/
def badLenExc : PyExc :=
  ⟨"ValueError", "badly formed hexadecimal UUID string"⟩

/-- ValueError raised by int(s, 16) on a malformed literal. -/
def badIntExc : PyExc :=
  ⟨"ValueError", "invalid literal for int with base 16"⟩

/-- ValueError raised by the UUID constructor when the parsed integer is not a
128-bit value. -/
def rangeExc : PyExc :=
  ⟨"ValueError", "int is out of range (need a 128-bit value)"⟩

/-- The CPython uuid.UUID constructor applied to a string: removes every
occurrence of urn: and then uuid:, strips surrounding braces, removes hyphens,
requires exactly 32 remaining characters, parses them with int(s, 16) and
requires the value to fit in 128 bits. The Except error is the ValueError the
constructor raises. -/
def uuidParse (s : String) : Except PyExc Int :=
  let h1 := removeAll ("urn:".data) s.data
  let h2 := removeAll ("uuid:".data) h1
  let h3 := stripBraces h2
  let h4 := removeAll ("-".data) h3
  if h4.length ≠ 32 then Except.error badLenExc
  else
    match pyIntHex h4 with
    | none => Except.error badIntExc
    | some n =>
      if n < 0 ∨ (2 : Int) ^ 128 ≤ n then Except.error rangeExc
      else Except.ok n

/-- Does the string parse as a UUID (no ValueError raised). -/
def pyUUIDOk (s : String) : Bool :=
  match uuidParse s with
  | Except.ok _ => true
  | Except.error _ => false

/-- The try block of validate_collection_id in util.py: if collection_id is
truthy (neither None nor empty), the UUID constructor is applied to it; a
ValueError escapes the block as an error, a successful parse returns the
override, and a falsy override falls through (ok none). -/
def tryBody (collection_id : Option String) : Except PyExc (Option String) :=
  match collection_id with
  | none => Except.ok none
  | some s =>
    if s = "" then Except.ok none
    else
      match uuidParse s with
      | Except.error e => Except.error e
      | Except.ok _ => Except.ok (some s)

/-- validate_collection_id from util.py. The internal default is Option String
because the tools store the possibly absent environment value in
self._collection_id and pass it here unchecked; a ValueError from the UUID
parse is swallowed by the except clause and the default is returned. -/
def validate_collection_id (internal_coll_id : Option String)
    (collection_id : Option String) : Option String :=
  match tryBody collection_id with
  | Except.ok (some cid) => some cid
  | Except.ok none => internal_coll_id
  | Except.error _ => internal_coll_id

/-- Python value appearing in a keyword-argument mapping or a response:
strings, integers, booleans, lists, attribute/key maps, and None (null). -/
inductive Value where
  | null : Value
  | str : String → Value
  | int : Int → Value
  | bool : Bool → Value
  | list : List Value → Value
  | dict : List (String × Value) → Value

/-- The keyword-argument mapping an adapter passes to the remote SDK call. -/
def Env : Type := List (String × Value)

/-- A Python object seen as its attribute map (the SDK response object). -/
def PyObj : Type := List (String × Value)

/-- First-match association lookup, mirroring keyword-argument and attribute
access on the mappings of this embedding. -/
def assoc {β : Type} : List (String × β) → String → Option β
  | [], _ => none
  | (k, v) :: rest, key => if key = k then some v else assoc rest key

/-- AttributeError raised when an object lacks the requested attribute. -/
def attrExc (attr : String) : PyExc :=
  ⟨"AttributeError", "object has no attribute " ++ attr⟩

/-- Python attribute access resp.attr on a response object. -/
def getattrV (o : PyObj) (attr : String) : Except PyExc Value :=
  match assoc o attr with
  | some v => Except.ok v
  | none => Except.error (attrExc attr)

/-- An optional Python string as the value placed in a keyword argument. -/
def optStr : Option String → Value
  | none => Value.null
  | some s => Value.str s

/-- An optional Python int as the value placed in a keyword argument. -/
def optInt : Option Int → Value
  | none => Value.null
  | some n => Value.int n

/-- An optional Python bool as the value placed in a keyword argument. -/
def optBool : Option Bool → Value
  | none => Value.null
  | some b => Value.bool b

/-- An optional Python list as the value placed in a keyword argument. -/
def optList : Option (List Value) → Value
  | none => Value.null
  | some vs => Value.list vs

/-- Python a or b on two optional strings: a when it is truthy (present and
nonempty), otherwise b. Models api_key or os.getenv(...) in the constructors. -/
def pyOrOptStr (a b : Option String) : Option String :=
  match a with
  | none => b
  | some s => if s = "" then b else some s

/-- ValueError raised by both constructors when the credential is falsy. -/
def apiKeyExc : PyExc :=
  ⟨"ValueError", "Gestell API key must be provided (via argument or GESTELL_API_KEY env var)."⟩

/-- Configuration captured by GestellSearchTool.__init__: gestell_api_key is
the key held by the Gestell client stored in self._gestell (the only
observable datum of the client in this embedding), collection_id is
self._collection_id, which the constructor leaves possibly absent. -/
structure GestellSearchTool where
  gestell_api_key : String
  collection_id : Option String

/-- Same configuration shape for GestellPromptTool. -/
structure GestellPromptTool where
  gestell_api_key : String
  collection_id : Option String

/-- GestellSearchTool.__init__: the credential falls back to the environment
and a falsy result raises ValueError; the collection id falls back to the
environment with no check at all. Arguments: explicit api_key, explicit
collection_id, then the GESTELL_API_KEY and GESTELL_COLLECTION_ID environment
values. -/
def GestellSearchTool.init (api_key collection_id env_api_key env_collection_id :
    Option String) : Except PyExc GestellSearchTool :=
  match pyOrOptStr api_key env_api_key with
  | none => Except.error apiKeyExc
  | some k =>
    if k = "" then Except.error apiKeyExc
    else Except.ok ⟨k, pyOrOptStr collection_id env_collection_id⟩

/-- GestellPromptTool.__init__, identical to the search constructor. -/
def GestellPromptTool.init (api_key collection_id env_api_key env_collection_id :
    Option String) : Except PyExc GestellPromptTool :=
  match pyOrOptStr api_key env_api_key with
  | none => Except.error apiKeyExc
  | some k =>
    if k = "" then Except.error apiKeyExc
    else Except.ok ⟨k, pyOrOptStr collection_id env_collection_id⟩

/-- Arguments of GestellSearchTool._run and _arun, in source order. -/
structure SearchArgs where
  query : String
  collection_id : Option String
  category_id : Option String
  method : Option String
  search_type : Option String
  vector_depth : Option Int
  node_depth : Option Int
  max_queries : Option Int
  max_results : Option Int
  include_content : Option Bool
  include_edges : Option Bool

/-- Arguments of GestellPromptTool._run and _arun, in source order. -/
structure PromptArgs where
  prompt : String
  collection_id : Option String
  category_id : Option String
  method : Option String
  search_type : Option String
  vector_depth : Option Int
  node_depth : Option Int
  max_queries : Option Int
  max_results : Option Int
  template : Option String
  cot : Option Bool
  messages : Option (List Value)

/-- The keyword arguments GestellSearchTool._run passes to
self._gestell.query.search, with the renames written in the call: search_type
is sent as type, vector_depth as vectorDepth, node_depth as nodeDepth,
max_queries as maxQueries, max_results as maxResults, include_content as
includeContent, include_edges as includeEdges, and the query text as prompt.
Every keyword is always passed, holding None when the argument is unset. -/
def searchEnvelope (tool : GestellSearchTool) (a : SearchArgs) : Env :=
  [("collection_id", optStr (validate_collection_id tool.collection_id a.collection_id)),
   ("prompt", Value.str a.query),
   ("category_id", optStr a.category_id),
   ("method", optStr a.method),
   ("type", optStr a.search_type),
   ("vectorDepth", optInt a.vector_depth),
   ("nodeDepth", optInt a.node_depth),
   ("maxQueries", optInt a.max_queries),
   ("maxResults", optInt a.max_results),
   ("includeContent", optBool a.include_content),
   ("includeEdges", optBool a.include_edges)]

/-- The keyword arguments GestellPromptTool._run passes to
self._gestell.query.prompt, with the same renames plus template, cot and
messages passed under their own names. -/
def promptEnvelope (tool : GestellPromptTool) (a : PromptArgs) : Env :=
  [("collection_id", optStr (validate_collection_id tool.collection_id a.collection_id)),
   ("prompt", Value.str a.prompt),
   ("category_id", optStr a.category_id),
   ("method", optStr a.method),
   ("type", optStr a.search_type),
   ("vectorDepth", optInt a.vector_depth),
   ("nodeDepth", optInt a.node_depth),
   ("maxQueries", optInt a.max_queries),
   ("maxResults", optInt a.max_results),
   ("template", optStr a.template),
   ("cot", optBool a.cot),
   ("messages", optList a.messages)]

/-- The except clause of GestellSearchTool._run and _arun: any exception e is
re-raised as RuntimeError with the formatted message. -/
def wrapSearch (e : PyExc) : PyExc :=
  ⟨"RuntimeError", "Gestell search failed: " ++ e.msg⟩

/-- The except clause of GestellPromptTool._run and _arun. -/
def wrapPrompt (e : PyExc) : PyExc :=
  ⟨"RuntimeError", "Gestell prompt failed: " ++ e.msg⟩

/-- Attribute names bound on a GestellSearchTool instance by the class body of
search.py: the class attributes, the private attributes and the methods. The
framework base classes bind further attributes, none of them named
validate_collection_id; that name is a module-level function of util.py and is
never bound on the class or the instance. -/
def searchToolAttrNames : List String :=
  ["name", "description", "args_schema", "_gestell", "_collection_id",
   "__init__", "_run", "_arun"]

/-- Attribute names bound on a GestellPromptTool instance by the class body of
prompt.py; as for the search tool, validate_collection_id is not among them. -/
def promptToolAttrNames : List String :=
  ["name", "description", "args_schema", "_gestell", "_collection_id",
   "__init__", "_run", "_arun"]

/-- Python attribute lookup self.attr on an instance whose bound attribute
names are attrs: AttributeError when the name is absent. -/
def instanceGetattr (attrs : List String) (cls attr : String) : Except PyExc Unit :=
  if attrs.contains attr then Except.ok ()
  else Except.error ⟨"AttributeError", cls ++ " object has no attribute " ++ attr⟩

/-- GestellSearchTool._run in state-passing form: the pair of the outcome
(returned list or raised exception) and the tool configuration as it stands
after the call. The try block performs the remote call on the envelope; the
except clause wraps any failure as RuntimeError; resp.result is read after the
try block, so its AttributeError is not wrapped. No statement assigns to
self._gestell or self._collection_id, so every branch carries the entry
configuration through. -/
def GestellSearchTool.runS (remote : Env → Except PyExc PyObj)
    (tool : GestellSearchTool) (a : SearchArgs) :
    Except PyExc Value × GestellSearchTool :=
  match remote (searchEnvelope tool a) with
  | Except.error e => (Except.error (wrapSearch e), tool)
  | Except.ok resp => (getattrV resp "result", tool)

/-- GestellSearchTool._run: the outcome of the state-passing form. -/
def GestellSearchTool.run (remote : Env → Except PyExc PyObj)
    (tool : GestellSearchTool) (a : SearchArgs) : Except PyExc Value :=
  (GestellSearchTool.runS remote tool a).1

/-- GestellSearchTool._arun in state-passing form. Its try block first
evaluates self.validate_collection_id(collection_id); search.py binds no
attribute of that name, so the lookup raises AttributeError inside the try
block and the except clause wraps it, before any remote call. The ok branch of
the lookup is unreachable for searchToolAttrNames and is filled with the
remote-call flow of the try block. -/
def GestellSearchTool.arunS (remote : Env → Except PyExc PyObj)
    (tool : GestellSearchTool) (a : SearchArgs) :
    Except PyExc Value × GestellSearchTool :=
  match instanceGetattr searchToolAttrNames "GestellSearchTool" "validate_collection_id" with
  | Except.error e => (Except.error (wrapSearch e), tool)
  | Except.ok _ =>
    match remote (searchEnvelope tool a) with
    | Except.error e => (Except.error (wrapSearch e), tool)
    | Except.ok resp => (getattrV resp "result", tool)

/-- GestellSearchTool._arun: the outcome of the state-passing form. -/
def GestellSearchTool.arun (remote : Env → Except PyExc PyObj)
    (tool : GestellSearchTool) (a : SearchArgs) : Except PyExc Value :=
  (GestellSearchTool.arunS remote tool a).1

/-- GestellPromptTool._run in state-passing form. On success the response is
returned through str(response); the string conversion of the SDK response
object is defined outside this repository, so it is the parameter pystr, like
the transport itself. -/
def GestellPromptTool.runS (remote : Env → Except PyExc PyObj)
    (pystr : PyObj → String) (tool : GestellPromptTool) (a : PromptArgs) :
    Except PyExc String × GestellPromptTool :=
  match remote (promptEnvelope tool a) with
  | Except.error e => (Except.error (wrapPrompt e), tool)
  | Except.ok resp => (Except.ok (pystr resp), tool)

/-- GestellPromptTool._run: the outcome of the state-passing form. -/
def GestellPromptTool.run (remote : Env → Except PyExc PyObj)
    (pystr : PyObj → String) (tool : GestellPromptTool) (a : PromptArgs) :
    Except PyExc String :=
  (GestellPromptTool.runS remote pystr tool a).1

/-- GestellPromptTool._arun in state-passing form: as for the search tool, the
try block first evaluates self.validate_collection_id(collection_id), an
attribute prompt.py never binds, so the wrapped AttributeError is raised
before any remote call; the ok branch is unreachable for promptToolAttrNames
and is filled with the remote-call flow of the try block. -/
def GestellPromptTool.arunS (remote : Env → Except PyExc PyObj)
    (pystr : PyObj → String) (tool : GestellPromptTool) (a : PromptArgs) :
    Except PyExc String × GestellPromptTool :=
  match instanceGetattr promptToolAttrNames "GestellPromptTool" "validate_collection_id" with
  | Except.error e => (Except.error (wrapPrompt e), tool)
  | Except.ok _ =>
    match remote (promptEnvelope tool a) with
    | Except.error e => (Except.error (wrapPrompt e), tool)
    | Except.ok resp => (Except.ok (pystr resp), tool)

/-- GestellPromptTool._arun: the outcome of the state-passing form. -/
def GestellPromptTool.arun (remote : Env → Except PyExc PyObj)
    (pystr : PyObj → String) (tool : GestellPromptTool) (a : PromptArgs) :
    Except PyExc String :=
  (GestellPromptTool.arunS remote pystr tool a).1

/-- Stub result list, as in the pass-through test of the specification. -/
def stubResult : Value :=
  Value.list [Value.dict [("id", Value.str "a")], Value.dict [("id", Value.str "b")]]

/-- Stub response object carrying the result list. -/
def stubResponse : PyObj := [("result", stubResult)]

/-- Stub transport that always succeeds with stubResponse. -/
def stubRemote : Env → Except PyExc PyObj := fun _ => Except.ok stubResponse

/-- Stub transport that always fails with a connection error. -/
def failRemote : Env → Except PyExc PyObj :=
  fun _ => Except.error ⟨"ConnectionError", "connection refused"⟩

/-- Stub transport that succeeds with a response lacking a result attribute. -/
def noResultRemote : Env → Except PyExc PyObj :=
  fun _ => Except.ok [("status", Value.str "OK")]

/-- Stub string conversion for the prompt response object. -/
def stubPyStr : PyObj → String := fun _ => "stub-response"

/-- Concrete search tool configuration used in closed statements. -/
def cexSearchTool : GestellSearchTool :=
  ⟨"k", some "11111111-1111-1111-1111-111111111111"⟩

/-- Concrete search invocation with all optional arguments unset. -/
def cexSearchArgs : SearchArgs :=
  ⟨"hello", none, none, none, none, none, none, none, none, none, none⟩

/-- Concrete prompt tool configuration used in closed statements. -/
def cexPromptTool : GestellPromptTool :=
  ⟨"k", some "11111111-1111-1111-1111-111111111111"⟩

/-- Concrete prompt invocation with all optional arguments unset. -/
def cexPromptArgs : PromptArgs :=
  ⟨"hello", none, none, none, none, none, none, none, none, none, none, none⟩

/-- The exception every call of GestellSearchTool._arun raises: the wrapped
AttributeError from the self.validate_collection_id lookup. -/
def searchArunExc : PyExc :=
  ⟨"RuntimeError", "Gestell search failed: GestellSearchTool object has no attribute validate_collection_id"⟩

/-- The exception every call of GestellPromptTool._arun raises. -/
def promptArunExc : PyExc :=
  ⟨"RuntimeError", "Gestell prompt failed: GestellPromptTool object has no attribute validate_collection_id"⟩

/-- Claim C1: identifier resolution is correct. For every default string d and
every override u that parses as a UUID, validate_collection_id returns the
override; for an override that is null, empty, or fails UUID parsing, it
returns the default, with no error raised. -/
theorem identifier_resolution (d u x : String)
    (hu : pyUUIDOk u = true) (hx : pyUUIDOk x = false) :
    validate_collection_id (some d) (some u) = some u ∧
    validate_collection_id (some d) none = some d ∧
    validate_collection_id (some d) (some "") = some d ∧
    validate_collection_id (some d) (some x) = some d := by
  refine ⟨?_, rfl, rfl, ?_⟩
  · have hne : u ≠ "" := by
      intro h
      rw [h] at hu
      exact absurd hu (by decide)
    unfold pyUUIDOk at hu
    cases h : uuidParse u with
    | error e => rw [h] at hu; simp at hu
    | ok n => simp [validate_collection_id, tryBody, hne, h]
  · by_cases hxe : x = ""
    · simp [validate_collection_id, tryBody, hxe]
    · unfold pyUUIDOk at hx
      cases h : uuidParse x with
      | ok n => rw [h] at hx; simp at hx
      | error e => simp [validate_collection_id, tryBody, hxe, h]

/-- Claim C1 witness: the resolution theorem applied at a concrete valid UUID
and a concrete malformed override. -/
theorem identifier_resolution_witness :
    pyUUIDOk "12345678-1234-5678-1234-567812345678" = true ∧
    pyUUIDOk "not-a-uuid" = false ∧
    validate_collection_id (some "d") (some "12345678-1234-5678-1234-567812345678")
      = some "12345678-1234-5678-1234-567812345678" ∧
    validate_collection_id (some "d") (some "not-a-uuid") = some "d" := by
  refine ⟨by decide, by decide, ?_, ?_⟩
  · exact (identifier_resolution "d" "12345678-1234-5678-1234-567812345678" "not-a-uuid"
      (by decide) (by decide)).1
  · exact (identifier_resolution "d" "12345678-1234-5678-1234-567812345678" "not-a-uuid"
      (by decide) (by decide)).2.2.2

/-- Claim C2: the blocking and suspending entry points do not produce
identical results. With the same stub transport, the same configuration and
the same arguments, _run returns the stub result while _arun raises the
wrapped AttributeError from its self.validate_collection_id lookup, for both
the search tool and the prompt tool; the remote call is never reached in
_arun. -/
theorem run_arun_divergence :
    GestellSearchTool.run stubRemote cexSearchTool cexSearchArgs = Except.ok stubResult ∧
    GestellSearchTool.arun stubRemote cexSearchTool cexSearchArgs = Except.error searchArunExc ∧
    GestellPromptTool.run stubRemote stubPyStr cexPromptTool cexPromptArgs = Except.ok "stub-response" ∧
    GestellPromptTool.arun stubRemote stubPyStr cexPromptTool cexPromptArgs = Except.error promptArunExc :=
  ⟨rfl, rfl, rfl, rfl⟩

/-- Claim C3 counterexample: with the credential supplied and the collection
identifier absent from both the argument and the environment, construction of
both tools succeeds and stores an absent collection id, contradicting the
claimed required-at-construction policy for the collection identifier. -/
theorem construction_missing_collection_ok :
    GestellSearchTool.init (some "k") none none none = Except.ok ⟨"k", none⟩ ∧
    GestellPromptTool.init (some "k") none none none = Except.ok ⟨"k", none⟩ :=
  ⟨rfl, rfl⟩

/-- Claim C3 as amended: construction fails with the ValueError only when the
credential is falsy after the environment fallback; whenever the credential
resolves to a nonempty string, construction succeeds for both tools and the
stored collection id is just the fallback of the argument over the
environment, absent when both are absent, with no check. -/
theorem construction_key_policy (ak ck ek ec : Option String) :
    ((pyOrOptStr ak ek = none ∨ pyOrOptStr ak ek = some "") →
      GestellSearchTool.init ak ck ek ec = Except.error apiKeyExc ∧
      GestellPromptTool.init ak ck ek ec = Except.error apiKeyExc) ∧
    (∀ k, pyOrOptStr ak ek = some k → k ≠ "" →
      GestellSearchTool.init ak ck ek ec = Except.ok ⟨k, pyOrOptStr ck ec⟩ ∧
      GestellPromptTool.init ak ck ek ec = Except.ok ⟨k, pyOrOptStr ck ec⟩) := by
  constructor
  · rintro (h | h) <;> simp [GestellSearchTool.init, GestellPromptTool.init, h]
  · intro k hk hne
    simp [GestellSearchTool.init, GestellPromptTool.init, hk, hne]

/-- Claim C3 witness: the amended policy applied at a missing credential and
at a present credential with a missing collection id. -/
theorem construction_key_policy_witness :
    GestellSearchTool.init none none none (some "c") = Except.error apiKeyExc ∧
    GestellPromptTool.init (some "key") none none none = Except.ok ⟨"key", none⟩ :=
  ⟨((construction_key_policy none none none (some "c")).1 (Or.inl rfl)).1,
   ((construction_key_policy (some "key") none none none).2 "key" rfl (by decide)).2⟩

/-- Claim C4 counterexample: an invocation with every optional tuning field
unset still sends the renamed keys, mapped to null, in the envelope passed to
the remote operation, so the envelope does not omit those keys. -/
theorem unset_fields_still_sent :
    assoc (searchEnvelope cexSearchTool cexSearchArgs) "type" = some Value.null ∧
    assoc (promptEnvelope cexPromptTool cexPromptArgs) "vectorDepth" = some Value.null :=
  ⟨rfl, rfl⟩

/-- Claim C4 as amended: for every invocation with all optional tuning fields
unset, the envelope the adapter passes to the remote operation contains every
one of those fields keys, each mapped to the null value; the adapter performs
no key omission, and any dropping of null fields is left to the external
client library. -/
theorem unset_fields_sent_as_null (tool : GestellSearchTool) (ptool : GestellPromptTool)
    (q p : String) (oc oc2 : Option String) :
    assoc (searchEnvelope tool ⟨q, oc, none, none, none, none, none, none, none, none, none⟩)
      "category_id" = some Value.null ∧
    assoc (searchEnvelope tool ⟨q, oc, none, none, none, none, none, none, none, none, none⟩)
      "method" = some Value.null ∧
    assoc (searchEnvelope tool ⟨q, oc, none, none, none, none, none, none, none, none, none⟩)
      "type" = some Value.null ∧
    assoc (searchEnvelope tool ⟨q, oc, none, none, none, none, none, none, none, none, none⟩)
      "vectorDepth" = some Value.null ∧
    assoc (searchEnvelope tool ⟨q, oc, none, none, none, none, none, none, none, none, none⟩)
      "nodeDepth" = some Value.null ∧
    assoc (searchEnvelope tool ⟨q, oc, none, none, none, none, none, none, none, none, none⟩)
      "maxQueries" = some Value.null ∧
    assoc (searchEnvelope tool ⟨q, oc, none, none, none, none, none, none, none, none, none⟩)
      "maxResults" = some Value.null ∧
    assoc (searchEnvelope tool ⟨q, oc, none, none, none, none, none, none, none, none, none⟩)
      "includeContent" = some Value.null ∧
    assoc (searchEnvelope tool ⟨q, oc, none, none, none, none, none, none, none, none, none⟩)
      "includeEdges" = some Value.null ∧
    assoc (promptEnvelope ptool ⟨p, oc2, none, none, none, none, none, none, none, none, none, none⟩)
      "category_id" = some Value.null ∧
    assoc (promptEnvelope ptool ⟨p, oc2, none, none, none, none, none, none, none, none, none, none⟩)
      "method" = some Value.null ∧
    assoc (promptEnvelope ptool ⟨p, oc2, none, none, none, none, none, none, none, none, none, none⟩)
      "type" = some Value.null ∧
    assoc (promptEnvelope ptool ⟨p, oc2, none, none, none, none, none, none, none, none, none, none⟩)
      "vectorDepth" = some Value.null ∧
    assoc (promptEnvelope ptool ⟨p, oc2, none, none, none, none, none, none, none, none, none, none⟩)
      "nodeDepth" = some Value.null ∧
    assoc (promptEnvelope ptool ⟨p, oc2, none, none, none, none, none, none, none, none, none, none⟩)
      "maxQueries" = some Value.null ∧
    assoc (promptEnvelope ptool ⟨p, oc2, none, none, none, none, none, none, none, none, none, none⟩)
      "maxResults" = some Value.null ∧
    assoc (promptEnvelope ptool ⟨p, oc2, none, none, none, none, none, none, none, none, none, none⟩)
      "template" = some Value.null ∧
    assoc (promptEnvelope ptool ⟨p, oc2, none, none, none, none, none, none, none, none, none, none⟩)
      "cot" = some Value.null ∧
    assoc (promptEnvelope ptool ⟨p, oc2, none, none, none, none, none, none, none, none, none, none⟩)
      "messages" = some Value.null :=
  ⟨rfl, rfl, rfl, rfl, rfl, rfl, rfl, rfl, rfl, rfl, rfl, rfl, rfl, rfl, rfl, rfl, rfl, rfl, rfl⟩

/-- Claim C5: every failure of the remote call is re-raised by the blocking
entry point of each adapter as the single RuntimeError kind whose message
appends the original message to a fixed text, uniformly in the original
failure. -/
theorem error_wrapping (remote : Env → Except PyExc PyObj) (pystr : PyObj → String)
    (tool : GestellSearchTool) (ptool : GestellPromptTool)
    (a : SearchArgs) (pa : PromptArgs) (e f : PyExc)
    (hs : remote (searchEnvelope tool a) = Except.error e)
    (hp : remote (promptEnvelope ptool pa) = Except.error f) :
    GestellSearchTool.run remote tool a =
      Except.error ⟨"RuntimeError", "Gestell search failed: " ++ e.msg⟩ ∧
    GestellPromptTool.run remote pystr ptool pa =
      Except.error ⟨"RuntimeError", "Gestell prompt failed: " ++ f.msg⟩ := by
  constructor
  · simp [GestellSearchTool.run, GestellSearchTool.runS, hs, wrapSearch]
  · simp [GestellPromptTool.run, GestellPromptTool.runS, hp, wrapPrompt]

/-- Claim C5 witness: the wrapping theorem applied to a stub transport that
fails with a connection error. -/
theorem error_wrapping_witness :
    GestellSearchTool.run failRemote cexSearchTool cexSearchArgs =
      Except.error ⟨"RuntimeError", "Gestell search failed: connection refused"⟩ ∧
    GestellPromptTool.run failRemote stubPyStr cexPromptTool cexPromptArgs =
      Except.error ⟨"RuntimeError", "Gestell prompt failed: connection refused"⟩ :=
  error_wrapping failRemote stubPyStr cexSearchTool cexPromptTool cexSearchArgs cexPromptArgs
    ⟨"ConnectionError", "connection refused"⟩ ⟨"ConnectionError", "connection refused"⟩ rfl rfl

/-- Claim C6: field mapping. For every invocation with the renamed fields set,
the envelope carries search_type under type, vector_depth under vectorDepth,
node_depth under nodeDepth, max_queries under maxQueries, max_results under
maxResults, include_content under includeContent, include_edges under
includeEdges, and the query or prompt text under prompt, for both adapters;
the prompt adapter also carries template, cot and messages under their own
names. -/
theorem field_mapping (tool : GestellSearchTool) (ptool : GestellPromptTool)
    (q p cat mth st tpl : String) (oc oc2 : Option String)
    (vd nd mq mr : Int) (ic ie ct : Bool) (ms : List Value) :
    assoc (searchEnvelope tool
        ⟨q, oc, some cat, some mth, some st, some vd, some nd, some mq, some mr, some ic, some ie⟩)
      "type" = some (Value.str st) ∧
    assoc (searchEnvelope tool
        ⟨q, oc, some cat, some mth, some st, some vd, some nd, some mq, some mr, some ic, some ie⟩)
      "vectorDepth" = some (Value.int vd) ∧
    assoc (searchEnvelope tool
        ⟨q, oc, some cat, some mth, some st, some vd, some nd, some mq, some mr, some ic, some ie⟩)
      "nodeDepth" = some (Value.int nd) ∧
    assoc (searchEnvelope tool
        ⟨q, oc, some cat, some mth, some st, some vd, some nd, some mq, some mr, some ic, some ie⟩)
      "maxQueries" = some (Value.int mq) ∧
    assoc (searchEnvelope tool
        ⟨q, oc, some cat, some mth, some st, some vd, some nd, some mq, some mr, some ic, some ie⟩)
      "maxResults" = some (Value.int mr) ∧
    assoc (searchEnvelope tool
        ⟨q, oc, some cat, some mth, some st, some vd, some nd, some mq, some mr, some ic, some ie⟩)
      "includeContent" = some (Value.bool ic) ∧
    assoc (searchEnvelope tool
        ⟨q, oc, some cat, some mth, some st, some vd, some nd, some mq, some mr, some ic, some ie⟩)
      "includeEdges" = some (Value.bool ie) ∧
    assoc (searchEnvelope tool
        ⟨q, oc, some cat, some mth, some st, some vd, some nd, some mq, some mr, some ic, some ie⟩)
      "prompt" = some (Value.str q) ∧
    assoc (searchEnvelope tool
        ⟨q, oc, some cat, some mth, some st, some vd, some nd, some mq, some mr, some ic, some ie⟩)
      "category_id" = some (Value.str cat) ∧
    assoc (searchEnvelope tool
        ⟨q, oc, some cat, some mth, some st, some vd, some nd, some mq, some mr, some ic, some ie⟩)
      "method" = some (Value.str mth) ∧
    assoc (promptEnvelope ptool
        ⟨p, oc2, some cat, some mth, some st, some vd, some nd, some mq, some mr, some tpl, some ct, some ms⟩)
      "prompt" = some (Value.str p) ∧
    assoc (promptEnvelope ptool
        ⟨p, oc2, some cat, some mth, some st, some vd, some nd, some mq, some mr, some tpl, some ct, some ms⟩)
      "type" = some (Value.str st) ∧
    assoc (promptEnvelope ptool
        ⟨p, oc2, some cat, some mth, some st, some vd, some nd, some mq, some mr, some tpl, some ct, some ms⟩)
      "vectorDepth" = some (Value.int vd) ∧
    assoc (promptEnvelope ptool
        ⟨p, oc2, some cat, some mth, some st, some vd, some nd, some mq, some mr, some tpl, some ct, some ms⟩)
      "nodeDepth" = some (Value.int nd) ∧
    assoc (promptEnvelope ptool
        ⟨p, oc2, some cat, some mth, some st, some vd, some nd, some mq, some mr, some tpl, some ct, some ms⟩)
      "maxQueries" = some (Value.int mq) ∧
    assoc (promptEnvelope ptool
        ⟨p, oc2, some cat, some mth, some st, some vd, some nd, some mq, some mr, some tpl, some ct, some ms⟩)
      "maxResults" = some (Value.int mr) ∧
    assoc (promptEnvelope ptool
        ⟨p, oc2, some cat, some mth, some st, some vd, some nd, some mq, some mr, some tpl, some ct, some ms⟩)
      "template" = some (Value.str tpl) ∧
    assoc (promptEnvelope ptool
        ⟨p, oc2, some cat, some mth, some st, some vd, some nd, some mq, some mr, some tpl, some ct, some ms⟩)
      "cot" = some (Value.bool ct) ∧
    assoc (promptEnvelope ptool
        ⟨p, oc2, some cat, some mth, some st, some vd, some nd, some mq, some mr, some tpl, some ct, some ms⟩)
      "messages" = some (Value.list ms) :=
  ⟨rfl, rfl, rfl, rfl, rfl, rfl, rfl, rfl, rfl, rfl, rfl, rfl, rfl, rfl, rfl, rfl, rfl, rfl, rfl⟩

/-- Claim C7: result pass-through. Whenever the remote search call succeeds
and the response carries a result list, the blocking search entry point
returns that very list, unchanged. -/
theorem result_pass_through (remote : Env → Except PyExc PyObj)
    (tool : GestellSearchTool) (a : SearchArgs) (resp : PyObj) (rs : List Value)
    (h1 : remote (searchEnvelope tool a) = Except.ok resp)
    (h2 : assoc resp "result" = some (Value.list rs)) :
    GestellSearchTool.run remote tool a = Except.ok (Value.list rs) := by
  simp [GestellSearchTool.run, GestellSearchTool.runS, h1, getattrV, h2]

/-- Claim C7 witness: the pass-through theorem applied to the stub transport
returning two records. -/
theorem result_pass_through_witness :
    GestellSearchTool.run stubRemote cexSearchTool cexSearchArgs =
      Except.ok (Value.list [Value.dict [("id", Value.str "a")],
                             Value.dict [("id", Value.str "b")]]) :=
  result_pass_through stubRemote cexSearchTool cexSearchArgs stubResponse
    [Value.dict [("id", Value.str "a")], Value.dict [("id", Value.str "b")]] rfl rfl

/-- Claim C8: configuration immutability. For every transport outcome and
every invocation of the blocking or suspending entry point of either tool, the
configuration captured at construction is unchanged after the call, whether
the call succeeds or raises. -/
theorem configuration_immutability (remote : Env → Except PyExc PyObj)
    (pystr : PyObj → String) (tool : GestellSearchTool) (ptool : GestellPromptTool)
    (a : SearchArgs) (pa : PromptArgs) :
    (GestellSearchTool.runS remote tool a).2 = tool ∧
    (GestellSearchTool.arunS remote tool a).2 = tool ∧
    (GestellPromptTool.runS remote pystr ptool pa).2 = ptool ∧
    (GestellPromptTool.arunS remote pystr ptool pa).2 = ptool := by
  refine ⟨?_, ?_, ?_, ?_⟩
  · cases h : remote (searchEnvelope tool a) <;> simp [GestellSearchTool.runS, h]
  · rfl
  · cases h : remote (promptEnvelope ptool pa) <;> simp [GestellPromptTool.runS, h]
  · rfl

/-- Claim C9: totality of the resolver. For every default string and every
override that is a string or absent, validate_collection_id returns a string;
when the UUID constructor raises inside the try block, the error is converted
into the fallback to the default and never propagated. -/
theorem resolver_totality (d : String) (x : Option String) :
    (∃ r : String, validate_collection_id (some d) x = some r) ∧
    (∀ e, tryBody x = Except.error e → validate_collection_id (some d) x = some d) := by
  constructor
  · cases h : tryBody x with
    | error e => exact ⟨d, by simp [validate_collection_id, h]⟩
    | ok o =>
      cases o with
      | none => exact ⟨d, by simp [validate_collection_id, h]⟩
      | some s => exact ⟨s, by simp [validate_collection_id, h]⟩
  · intro e he
    simp [validate_collection_id, he]

/-- Claim C9 witness: the totality theorem applied at an override whose UUID
parse raises the length ValueError. -/
theorem resolver_totality_witness :
    tryBody (some "zz") = Except.error badLenExc ∧
    validate_collection_id (some "d") (some "zz") = some "d" :=
  ⟨rfl, (resolver_totality "d" (some "zz")).2 badLenExc rfl⟩

/-- Claim C10: unwrap outside the error boundary. When the remote search call
succeeds but the response lacks a result attribute, the blocking search entry
point raises the raw AttributeError, whose kind is not the RuntimeError kind
used by the uniform wrapper. -/
theorem raw_result_attribute_error (remote : Env → Except PyExc PyObj)
    (tool : GestellSearchTool) (a : SearchArgs) (resp : PyObj)
    (h1 : remote (searchEnvelope tool a) = Except.ok resp)
    (h2 : assoc resp "result" = none) :
    GestellSearchTool.run remote tool a = Except.error (attrExc "result") ∧
    (attrExc "result").kind = "AttributeError" ∧
    (attrExc "result").kind ≠ "RuntimeError" := by
  refine ⟨?_, rfl, by decide⟩
  simp [GestellSearchTool.run, GestellSearchTool.runS, h1, getattrV, h2]

/-- Claim C10 witness: the raw-propagation theorem applied to a stub transport
whose response has only a status attribute. -/
theorem raw_result_attribute_error_witness :
    GestellSearchTool.run noResultRemote cexSearchTool cexSearchArgs =
      Except.error (attrExc "result") ∧
    (attrExc "result").kind = "AttributeError" ∧
    (attrExc "result").kind ≠ "RuntimeError" :=
  raw_result_attribute_error noResultRemote cexSearchTool cexSearchArgs
    [("status", Value.str "OK")] rfl rfl
